import Mathlib

/-!
Shallow embedding of the shipping GraphQL resolver layer of
`saleor/graphql/shipping/types.py` and the country-coverage utility of
`saleor/graphql/shop/utils.py`.

Resolvers that may defer to a dataloader are embedded as a `Resolved`
value: either a value returned directly (no loader call), or a promise
carrying the loader key together with the `.then` continuation applied
to the fetched record.  Running a `Resolved` value against a store
(the batch-fetch result for the key) yields a `PyResult`, which records
whether the Python code returns normally or raises (attribute access on
`None`).
-/

/-- Monetary amount, standing for the `Money` values produced by the
pricing layer.  The resolvers only move these around, so an integer
amount plus a currency string suffices. -/
structure Money where
  amount : Int
  currency : String
deriving DecidableEq, Repr

/-- Channel listing row (`ShippingMethodChannelListing`): the record the
`ShippingMethodChannelListingByShippingMethodIdAndChannelSlugLoader`
returns for a `(shipping method id, channel slug)` key.  `price` is a
non-null column; the order-price bounds are nullable. -/
structure ChannelListing where
  price : Money
  maximum_order_price : Option Money
  minimum_order_price : Option Money
deriving DecidableEq, Repr

/-- Postal code rule row (`ShippingMethodPostalCodeRule`). -/
structure PostalCodeRule where
  start : String
  stop : String
  inclusion_type : String
deriving DecidableEq, Repr

/-- Mass units known to the weight layer. -/
inductive WeightUnit where
  | g | kg | lb | oz | tonne
deriving DecidableEq, Repr

/-- Grams per unit, as exact rationals. -/
def WeightUnit.grams : WeightUnit → ℚ
  | .g => 1
  | .kg => 1000
  | .tonne => 1000000
  | .lb => 45359237 / 100000
  | .oz => 45359237 / 1600000

/-- Measurement value: a magnitude in a unit. -/
structure Weight where
  unit : WeightUnit
  value : ℚ
deriving DecidableEq, Repr

/-- Shipping method node as the resolvers see it: a local
`models.ShippingMethod` row or an external `ShippingMethodData`.  The
`price`, `maximum_order_price` and `minimum_order_price` fields model
`getattr(root.node, field, None)`: `none` when the attribute is missing,
`some` when an earlier bulk step injected a pre-computed value.
`is_external` models `getattr(root.node, "is_external", False)`. -/
structure ShippingMethodNode where
  id : Nat
  price : Option Money
  maximum_order_price : Option Money
  minimum_order_price : Option Money
  is_external : Bool
  minimum_order_weight : Option Weight
  maximum_order_weight : Option Weight
  excluded_products : Option (List Nat)
deriving DecidableEq, Repr

/-- Context-wrapped entity (`ChannelContext`): a node paired with an
optional channel slug. -/
structure ChannelContext (ν : Type) where
  node : ν
  channel_slug : Option String
deriving DecidableEq, Repr

/-- Truthiness of the optional slug, as Python evaluates
`if not root.channel_slug`: `None` and the empty string are falsy. -/
def slugTruthy : Option String → Bool
  | none => false
  | some s => !(s == "")

/-- Outcome of running resolver code: a normal return, or a raised
exception (attribute access on `None`). -/
inductive PyResult (α : Type) where
  | ok : α → PyResult α
  | exn : PyResult α
deriving DecidableEq, Repr

/-- What a resolver hands back to the GraphQL engine: either a value
returned directly (no loader involved), or a promise made of the loader
key and the `.then` continuation applied once the batch fetch for that
key completes. -/
inductive Resolved (κ β α : Type) where
  | value : α → Resolved κ β α
  | promise : κ → (β → PyResult α) → Resolved κ β α

/-- Running a resolver outcome against a store: a direct value returns
normally, a promise applies its continuation to the fetched record. -/
def Resolved.run {κ β α : Type} (store : κ → β) : Resolved κ β α → PyResult α
  | .value v => .ok v
  | .promise k f => f (store k)

/-- Whether the resolver issued a loader fetch. -/
def Resolved.issuesFetch {κ β α : Type} : Resolved κ β α → Bool
  | .value _ => false
  | .promise _ _ => true

/-- Loader key of the fetch the resolver issued, if any. -/
def Resolved.fetchKey {κ β α : Type} : Resolved κ β α → Option κ
  | .value _ => none
  | .promise k _ => some k

/-- Continuation of `resolve_price`:
`lambda channel_listing: channel_listing.price if channel_listing else None`. -/
def price_then : Option ChannelListing → PyResult (Option Money)
  | some listing => .ok (some listing.price)
  | none => .ok none

/-- Continuation of `resolve_maximum_order_price`:
`lambda channel_listing: channel_listing.maximum_order_price` — no guard,
so a missing listing raises an attribute error. -/
def maximum_order_price_then : Option ChannelListing → PyResult (Option Money)
  | some listing => .ok listing.maximum_order_price
  | none => .exn

/-- Continuation of `resolve_minimum_order_price`:
`lambda channel_listing: channel_listing.minimum_order_price` — no guard,
so a missing listing raises an attribute error. -/
def minimum_order_price_then : Option ChannelListing → PyResult (Option Money)
  | some listing => .ok listing.minimum_order_price
  | none => .exn

/-- Embedding of `ShippingMethod.resolve_price`. -/
def ShippingMethod.resolve_price (root : ChannelContext ShippingMethodNode) :
    Resolved (Nat × String) (Option ChannelListing) (Option Money) :=
  match root.node.price with
  | some price => .value (some price)
  | none =>
    if !(slugTruthy root.channel_slug) then .value none
    else if root.node.is_external then .value none
    else .promise (root.node.id, root.channel_slug.getD "") price_then

/-- Embedding of `ShippingMethod.resolve_maximum_order_price`. -/
def ShippingMethod.resolve_maximum_order_price
    (root : ChannelContext ShippingMethodNode) :
    Resolved (Nat × String) (Option ChannelListing) (Option Money) :=
  match root.node.maximum_order_price with
  | some maximum_order_price => .value (some maximum_order_price)
  | none =>
    if !(slugTruthy root.channel_slug) then .value none
    else if root.node.is_external then .value none
    else .promise (root.node.id, root.channel_slug.getD "") maximum_order_price_then

/-- Embedding of `ShippingMethod.resolve_minimum_order_price`. -/
def ShippingMethod.resolve_minimum_order_price
    (root : ChannelContext ShippingMethodNode) :
    Resolved (Nat × String) (Option ChannelListing) (Option Money) :=
  match root.node.minimum_order_price with
  | some minimum_order_price => .value (some minimum_order_price)
  | none =>
    if !(slugTruthy root.channel_slug) then .value none
    else if root.node.is_external then .value none
    else .promise (root.node.id, root.channel_slug.getD "") minimum_order_price_then

/-- Embedding of `ShippingMethod.resolve_postal_code_rules`: external
methods get `None`; otherwise the rules loader is fetched by method id
and its list is the field value. -/
def ShippingMethod.resolve_postal_code_rules
    (root : ChannelContext ShippingMethodNode) :
    Resolved Nat (List PostalCodeRule) (Option (List PostalCodeRule)) :=
  if root.node.is_external then .value none
  else .promise root.node.id (fun rules => .ok (some rules))

/-- Embedding of the body of `ShippingMethod.resolve_channel_listings`
(the code guarded by the manage-shipping permission decorator): external
methods get `None`; otherwise the listings loader is fetched by method
id and its list is the field value. -/
def ShippingMethod.resolve_channel_listings
    (root : ChannelContext ShippingMethodNode) :
    Resolved Nat (List ChannelListing) (Option (List ChannelListing)) :=
  if root.node.is_external then .value none
  else .promise root.node.id (fun listings => .ok (some listings))

/-- Modelled from the spec: the Weight-Unit Converter external
collaborator (`convert_weight` in `saleor/core/weight.py`, not part of
this excerpt), `convert(weight_value, target_unit) -> weight_value`, a
pure rescaling of the magnitude between units. -/
def convert_weight (weight : Weight) (unit : WeightUnit) : Weight :=
  ⟨unit, weight.value * weight.unit.grams / unit.grams⟩

/-- Modelled from the spec: `convert_weight_to_default_weight_unit`
(in `saleor/core/weight.py`, not part of this excerpt) converts a
possibly-absent stored weight to the shop's configured default unit,
passing `None` through. -/
def convert_weight_to_default_weight_unit (default_unit : WeightUnit) :
    Option Weight → Option Weight
  | some weight => some (convert_weight weight default_unit)
  | none => none

/-- Embedding of `ShippingMethod.resolve_maximum_order_weight`; the
shop's default weight unit is external state, passed explicitly. -/
def ShippingMethod.resolve_maximum_order_weight
    (root : ChannelContext ShippingMethodNode) (default_unit : WeightUnit) :
    Option Weight :=
  convert_weight_to_default_weight_unit default_unit root.node.maximum_order_weight

/-- Embedding of `ShippingMethod.resolve_minimum_order_weight`. -/
def ShippingMethod.resolve_minimum_order_weight
    (root : ChannelContext ShippingMethodNode) (default_unit : WeightUnit) :
    Option Weight :=
  convert_weight_to_default_weight_unit default_unit root.node.minimum_order_weight

/-- Base64 alphabet used by the global-id codec. -/
def base64Alphabet : List Char :=
  "ABCDEFGHIJKLMNOPQRSTUVWXYZabcdefghijklmnopqrstuvwxyz0123456789+/".toList

/-- Character of the base64 alphabet at a 6-bit index. -/
def base64Digit (i : Nat) : Char :=
  base64Alphabet.getD i '?'

/-- Standard base64 encoding of a byte list, with padding. -/
def base64EncodeBytes : List Nat → List Char
  | [] => []
  | [a] =>
    [base64Digit (a / 4), base64Digit (a % 4 * 16), '=', '=']
  | [a, b] =>
    [base64Digit (a / 4), base64Digit (a % 4 * 16 + b / 16),
     base64Digit (b % 16 * 4), '=']
  | a :: b :: c :: rest =>
    base64Digit (a / 4) :: base64Digit (a % 4 * 16 + b / 16) ::
      base64Digit (b % 16 * 4 + c / 64) :: base64Digit (c % 64) ::
      base64EncodeBytes rest

/-- Modelled from the spec: the Global-ID Codec external collaborator
(`graphene.Node.to_global_id`, not part of this excerpt),
`encode(type_name, local_id) -> opaque_string`: the base64 encoding of
the string `"<type_name>:<local_id>"`. -/
def to_global_id (type_name : String) (local_id : Nat) : String :=
  String.mk
    (base64EncodeBytes ((type_name ++ ":" ++ toString local_id).toList.map Char.toNat))

/-- Identifier a resolver exposes: either the raw identifier of an
external entity, untouched, or a global-id string. -/
inductive ResolvedId where
  | raw : Nat → ResolvedId
  | globalId : String → ResolvedId
deriving DecidableEq, Repr

/-- Embedding of `ShippingMethod.resolve_id`. -/
def ShippingMethod.resolve_id (root : ChannelContext ShippingMethodNode) :
    ResolvedId :=
  if root.node.is_external then .raw root.node.id
  else .globalId (to_global_id "ShippingMethod" root.node.id)

/-- Truthiness of the optional excluded-products collection, as Python
evaluates `if not root.node.excluded_products`: an absent collection and
an empty one are falsy. -/
def excludedProductsTruthy : Option (List Nat) → Bool
  | none => false
  | some products => !products.isEmpty

/-- Product relay connection over a slice of products, identified by
their ids.  Modelled from the spec: connection mechanics
(`create_connection_slice`, pagination) are external GraphQL-engine
plumbing; the connection keeps the product ids of the sliced set. -/
structure Connection where
  nodes : List Nat
deriving DecidableEq, Repr

/-- Modelled from the spec: `create_connection_slice` wraps a queryset
into a countable connection over its rows. -/
def create_connection_slice (qs : List Nat) : Connection :=
  ⟨qs⟩

/-- Embedding of the body of `ShippingMethod.resolve_excluded_products`
(the code guarded by the manage-shipping permission decorator): a falsy
collection yields a connection over the empty queryset
(`Product.objects.none()`), otherwise a connection over the collection's
rows.  The channel wrapper (`ChannelQsContext` with a null slug) does
not change the row set. -/
def ShippingMethod.resolve_excluded_products
    (root : ChannelContext ShippingMethodNode) : Connection :=
  if !(excludedProductsTruthy root.node.excluded_products) then
    create_connection_slice []
  else
    create_connection_slice (root.node.excluded_products.getD [])

/-- Country record of the country reference table: a code with a
display name. -/
structure Country where
  code : String
  name : String
deriving DecidableEq, Repr

/-- GraphQL `CountryDisplay` type: `code` plus `country` (the name). -/
structure CountryDisplay where
  code : String
  country : String
deriving DecidableEq, Repr

/-- Shipping zone node: the fields the embedded resolvers read. -/
structure ShippingZoneNode where
  id : Nat
  countries : List Country
deriving DecidableEq, Repr

/-- Embedding of `ShippingZone.resolve_countries`: one `CountryDisplay`
per country of the zone, in order. -/
def ShippingZone.resolve_countries (root : ChannelContext ShippingZoneNode) :
    List CountryDisplay :=
  root.node.countries.map (fun country => ⟨country.code, country.name⟩)

/-- Embedding of `get_countries_codes_list` from
`saleor/graphql/shop/utils.py`.  The country reference table and the
stored shipping zones are external state, passed explicitly: the
universe as the set of all reference-table codes, each zone as its set
of country codes. -/
def get_countries_codes_list (all_countries_codes : Finset String)
    (zones : List (Finset String)) (in_shipping_zones : Option Bool) :
    Finset String :=
  match in_shipping_zones with
  | some b =>
    let covered_countries_codes := zones.foldl (fun acc zone => acc ∪ zone) ∅
    if b then covered_countries_codes
    else all_countries_codes \ covered_countries_codes
  | none => all_countries_codes

/-! Concrete inputs used by counterexamples and witnesses. -/

/-- Locally stored shipping method with no pre-computed price fields. -/
def sampleNode : ShippingMethodNode :=
  ⟨7, none, none, none, false, none, none, none⟩

/-- The sample node wrapped with the channel slug `"default"`. -/
def sampleRoot : ChannelContext ShippingMethodNode :=
  ⟨sampleNode, some "default"⟩

/-- Locally stored method wrapped with no channel qualifier. -/
def noSlugRoot : ChannelContext ShippingMethodNode :=
  ⟨⟨4, none, none, none, false, none, none, none⟩, none⟩

/-- Externally sourced method. -/
def extRoot : ChannelContext ShippingMethodNode :=
  ⟨⟨9, none, none, none, true, none, none, none⟩, some "default"⟩

/-- Method carrying a pre-computed price, wrapped with no channel
qualifier. -/
def precomputedPriceRoot : ChannelContext ShippingMethodNode :=
  ⟨⟨3, some ⟨10, "USD"⟩, none, none, false, none, none, none⟩, none⟩

/-- Store holding no channel-listing row for any key. -/
def missingListingStore : Nat × String → Option ChannelListing :=
  fun _ => none

/-! Helper lemmas. -/

/-- Membership in the fold that unions the zones' code sets. -/
lemma mem_foldl_union (zones : List (Finset String)) (acc : Finset String)
    (c : String) :
    c ∈ zones.foldl (fun a zone => a ∪ zone) acc ↔
      c ∈ acc ∨ ∃ zone ∈ zones, c ∈ zone := by
  induction zones generalizing acc with
  | nil => simp
  | cons z zs ih =>
    simp only [List.foldl_cons, ih, Finset.mem_union, List.mem_cons]
    constructor
    · rintro (⟨h | h⟩ | ⟨zone, hz, hc⟩)
      · exact Or.inl h
      · exact Or.inr ⟨z, Or.inl rfl, h⟩
      · exact Or.inr ⟨zone, Or.inr hz, hc⟩
    · rintro (h | ⟨zone, hz | hz, hc⟩)
      · exact Or.inl (Or.inl h)
      · exact Or.inl (Or.inr (hz ▸ hc))
      · exact Or.inr ⟨zone, hz, hc⟩

/-- Every unit has a positive gram factor. -/
lemma WeightUnit.grams_ne_zero (u : WeightUnit) : u.grams ≠ 0 := by
  cases u <;> norm_num [WeightUnit.grams]

/-- Converting a weight to its own unit is the identity. -/
lemma convert_weight_self (w : Weight) : convert_weight w w.unit = w := by
  cases w with
  | mk unit value =>
    simp [convert_weight, mul_div_assoc, div_self (WeightUnit.grams_ne_zero unit)]

/-! Claim theorems. -/

/-- C4: `get_countries_codes_list` returns the universe when the filter
is absent, the union of the zones' country-code sets when the filter is
true, and the universe minus that union when the filter is false. -/
theorem C4_get_countries_codes_list_cases (u : Finset String)
    (zones : List (Finset String)) :
    get_countries_codes_list u zones none = u ∧
    (∀ c, c ∈ get_countries_codes_list u zones (some true) ↔
      ∃ zone ∈ zones, c ∈ zone) ∧
    (∀ c, c ∈ get_countries_codes_list u zones (some false) ↔
      c ∈ u ∧ ¬ ∃ zone ∈ zones, c ∈ zone) := by
  refine ⟨rfl, ?_, ?_⟩ <;> intro c <;>
    simp [get_countries_codes_list, mem_foldl_union]

/-- C2: with every zone's codes drawn from the country reference table
(the data-model invariant of the zones' country field), the covered and
uncovered sets are disjoint and their union is the universe returned by
the unfiltered call; with zero zones the covered set is empty and the
uncovered set is the whole universe. -/
theorem C2_coverage_partition (u : Finset String)
    (zones : List (Finset String)) (hsub : ∀ zone ∈ zones, zone ⊆ u) :
    Disjoint (get_countries_codes_list u zones (some true))
      (get_countries_codes_list u zones (some false)) ∧
    get_countries_codes_list u zones (some true) ∪
        get_countries_codes_list u zones (some false) =
      get_countries_codes_list u zones none ∧
    (zones = [] →
      get_countries_codes_list u zones (some true) = ∅ ∧
      get_countries_codes_list u zones (some false) = u) := by
  have hcov : get_countries_codes_list u zones (some true) =
      zones.foldl (fun a zone => a ∪ zone) ∅ := rfl
  have hunc : get_countries_codes_list u zones (some false) =
      u \ zones.foldl (fun a zone => a ∪ zone) ∅ := rfl
  have hsubU : zones.foldl (fun a zone => a ∪ zone) ∅ ⊆ u := by
    intro c hc
    rcases (mem_foldl_union zones ∅ c).mp hc with h | ⟨zone, hz, hcz⟩
    · simp at h
    · exact hsub zone hz hcz
  refine ⟨?_, ?_, ?_⟩
  · rw [hcov, hunc]
    exact Finset.disjoint_sdiff
  · rw [hcov, hunc]
    exact Finset.union_sdiff_of_subset hsubU
  · intro hz
    subst hz
    exact ⟨rfl, by simp [get_countries_codes_list]⟩

/-- C2 witness: universe `{"PL", "DE"}` with the single zone `{"PL"}`. -/
theorem C2_coverage_partition_witness :
    Disjoint (get_countries_codes_list {"PL", "DE"} [{"PL"}] (some true))
      (get_countries_codes_list {"PL", "DE"} [{"PL"}] (some false)) ∧
    get_countries_codes_list {"PL", "DE"} [{"PL"}] (some true) ∪
        get_countries_codes_list {"PL", "DE"} [{"PL"}] (some false) =
      get_countries_codes_list {"PL", "DE"} [{"PL"}] none ∧
    ([{"PL"}] = ([] : List (Finset String)) →
      get_countries_codes_list {"PL", "DE"} [{"PL"}] (some true) = ∅ ∧
      get_countries_codes_list {"PL", "DE"} [{"PL"}] (some false) =
        {"PL", "DE"}) :=
  C2_coverage_partition {"PL", "DE"} [{"PL"}] (by decide)

/-- C3: each channel-scoped price resolver applies its checks in order:
a pre-computed value is returned directly with no loader call; else a
falsy channel qualifier yields an absent value; else an externally
sourced entity yields an absent value; only otherwise is the loader
fetch issued, keyed by (entity id, channel slug), with the field's own
projection as continuation. -/
theorem C3_price_resolver_check_order (root : ChannelContext ShippingMethodNode) :
    (∀ v, root.node.price = some v →
      ShippingMethod.resolve_price root = .value (some v)) ∧
    (root.node.price = none → slugTruthy root.channel_slug = false →
      ShippingMethod.resolve_price root = .value none) ∧
    (root.node.price = none → slugTruthy root.channel_slug = true →
      root.node.is_external = true →
      ShippingMethod.resolve_price root = .value none) ∧
    (∀ s, root.node.price = none → root.channel_slug = some s → s ≠ "" →
      root.node.is_external = false →
      ShippingMethod.resolve_price root =
        .promise (root.node.id, s) price_then) ∧
    (∀ v, root.node.maximum_order_price = some v →
      ShippingMethod.resolve_maximum_order_price root = .value (some v)) ∧
    (root.node.maximum_order_price = none →
      slugTruthy root.channel_slug = false →
      ShippingMethod.resolve_maximum_order_price root = .value none) ∧
    (root.node.maximum_order_price = none →
      slugTruthy root.channel_slug = true → root.node.is_external = true →
      ShippingMethod.resolve_maximum_order_price root = .value none) ∧
    (∀ s, root.node.maximum_order_price = none → root.channel_slug = some s →
      s ≠ "" → root.node.is_external = false →
      ShippingMethod.resolve_maximum_order_price root =
        .promise (root.node.id, s) maximum_order_price_then) ∧
    (∀ v, root.node.minimum_order_price = some v →
      ShippingMethod.resolve_minimum_order_price root = .value (some v)) ∧
    (root.node.minimum_order_price = none →
      slugTruthy root.channel_slug = false →
      ShippingMethod.resolve_minimum_order_price root = .value none) ∧
    (root.node.minimum_order_price = none →
      slugTruthy root.channel_slug = true → root.node.is_external = true →
      ShippingMethod.resolve_minimum_order_price root = .value none) ∧
    (∀ s, root.node.minimum_order_price = none → root.channel_slug = some s →
      s ≠ "" → root.node.is_external = false →
      ShippingMethod.resolve_minimum_order_price root =
        .promise (root.node.id, s) minimum_order_price_then) := by
  refine ⟨?_, ?_, ?_, ?_, ?_, ?_, ?_, ?_, ?_, ?_, ?_, ?_⟩
  · intro v hv
    simp [ShippingMethod.resolve_price, hv]
  · intro hp hs
    simp [ShippingMethod.resolve_price, hp, hs]
  · intro hp hs hext
    simp [ShippingMethod.resolve_price, hp, hs, hext]
  · intro s hp hslug hne hext
    simp [ShippingMethod.resolve_price, hp, hslug, slugTruthy, hne, hext]
  · intro v hv
    simp [ShippingMethod.resolve_maximum_order_price, hv]
  · intro hp hs
    simp [ShippingMethod.resolve_maximum_order_price, hp, hs]
  · intro hp hs hext
    simp [ShippingMethod.resolve_maximum_order_price, hp, hs, hext]
  · intro s hp hslug hne hext
    simp [ShippingMethod.resolve_maximum_order_price, hp, hslug, slugTruthy,
      hne, hext]
  · intro v hv
    simp [ShippingMethod.resolve_minimum_order_price, hv]
  · intro hp hs
    simp [ShippingMethod.resolve_minimum_order_price, hp, hs]
  · intro hp hs hext
    simp [ShippingMethod.resolve_minimum_order_price, hp, hs, hext]
  · intro s hp hslug hne hext
    simp [ShippingMethod.resolve_minimum_order_price, hp, hslug, slugTruthy,
      hne, hext]

/-- C3 witness: at the sample method the fourth check fires and at the
pre-computed method the first check fires. -/
theorem C3_price_resolver_check_order_witness :
    ShippingMethod.resolve_price sampleRoot =
      .promise (sampleNode.id, "default") price_then ∧
    ShippingMethod.resolve_maximum_order_price sampleRoot =
      .promise (sampleNode.id, "default") maximum_order_price_then ∧
    ShippingMethod.resolve_price precomputedPriceRoot =
      .value (some ⟨10, "USD"⟩) :=
  ⟨(C3_price_resolver_check_order sampleRoot).2.2.2.1 "default" rfl rfl
      (by decide) rfl,
    (C3_price_resolver_check_order sampleRoot).2.2.2.2.2.2.2.1 "default" rfl rfl
      (by decide) rfl,
    (C3_price_resolver_check_order precomputedPriceRoot).1 ⟨10, "USD"⟩ rfl⟩

/-- C1: at shipping method 7 wrapped with channel slug `"default"`
(locally stored, no pre-computed values) and a store holding no
channel-listing row for the key, all three resolvers issue the fetch
keyed by `(7, "default")`, `resolve_price` resolves to an absent value,
but `resolve_maximum_order_price` and `resolve_minimum_order_price`
raise on the missing record instead of returning an absent value. -/
theorem C1_missing_listing_projection :
    (ShippingMethod.resolve_price sampleRoot).fetchKey = some (7, "default") ∧
    (ShippingMethod.resolve_maximum_order_price sampleRoot).fetchKey =
      some (7, "default") ∧
    (ShippingMethod.resolve_minimum_order_price sampleRoot).fetchKey =
      some (7, "default") ∧
    (ShippingMethod.resolve_price sampleRoot).run missingListingStore =
      .ok none ∧
    (ShippingMethod.resolve_maximum_order_price sampleRoot).run
      missingListingStore = .exn ∧
    (ShippingMethod.resolve_minimum_order_price sampleRoot).run
      missingListingStore = .exn :=
  ⟨rfl, rfl, rfl, rfl, rfl, rfl⟩

/-- C5 counterexample: a shipping method wrapped with no channel
qualifier but carrying a pre-computed price resolves to that price, not
to an absent value. -/
theorem C5_counterexample :
    precomputedPriceRoot.channel_slug = none ∧
    ¬ ShippingMethod.resolve_price precomputedPriceRoot = .value none := by
  refine ⟨rfl, ?_⟩
  intro h
  simp [ShippingMethod.resolve_price, precomputedPriceRoot] at h

/-- C5 (amended): with no channel qualifier `resolve_price` never issues
a loader fetch, and when the method also carries no pre-computed price
it returns an absent value. -/
theorem C5_no_channel_resolve_price (root : ChannelContext ShippingMethodNode)
    (hslug : root.channel_slug = none) :
    (ShippingMethod.resolve_price root).issuesFetch = false ∧
    (root.node.price = none →
      ShippingMethod.resolve_price root = .value none) := by
  cases hp : root.node.price with
  | some v =>
    refine ⟨?_, ?_⟩
    · simp [ShippingMethod.resolve_price, hp, Resolved.issuesFetch]
    · intro h
      simp [hp] at h
  | none =>
    have hres : ShippingMethod.resolve_price root = .value none := by
      simp [ShippingMethod.resolve_price, hp, hslug, slugTruthy]
    exact ⟨by simp [hres, Resolved.issuesFetch], fun _ => hres⟩

/-- C5 witness: the amended statement at the method with no channel
qualifier and no pre-computed price. -/
theorem C5_no_channel_resolve_price_witness :
    (ShippingMethod.resolve_price noSlugRoot).issuesFetch = false ∧
    (noSlugRoot.node.price = none →
      ShippingMethod.resolve_price noSlugRoot = .value none) :=
  C5_no_channel_resolve_price noSlugRoot rfl

/-- C6: an externally sourced shipping method gets an absent value from
`resolve_postal_code_rules` and from the permission-guarded body of
`resolve_channel_listings`, and neither issues a loader fetch. -/
theorem C6_external_no_datastore_call (root : ChannelContext ShippingMethodNode)
    (hext : root.node.is_external = true) :
    ShippingMethod.resolve_postal_code_rules root = .value none ∧
    ShippingMethod.resolve_channel_listings root = .value none ∧
    (ShippingMethod.resolve_postal_code_rules root).issuesFetch = false ∧
    (ShippingMethod.resolve_channel_listings root).issuesFetch = false := by
  refine ⟨?_, ?_, ?_, ?_⟩ <;>
    simp [ShippingMethod.resolve_postal_code_rules,
      ShippingMethod.resolve_channel_listings, hext, Resolved.issuesFetch]

/-- C6 witness: the statement at the external sample method. -/
theorem C6_external_no_datastore_call_witness :
    ShippingMethod.resolve_postal_code_rules extRoot = .value none ∧
    ShippingMethod.resolve_channel_listings extRoot = .value none ∧
    (ShippingMethod.resolve_postal_code_rules extRoot).issuesFetch = false ∧
    (ShippingMethod.resolve_channel_listings extRoot).issuesFetch = false :=
  C6_external_no_datastore_call extRoot rfl

/-- C7: `resolve_id` exposes the raw identifier of an externally sourced
method unmodified and encodes a locally stored method's id into the
global-id scheme under the type name `"ShippingMethod"`. -/
theorem C7_resolve_id_scheme (root : ChannelContext ShippingMethodNode) :
    (root.node.is_external = true →
      ShippingMethod.resolve_id root = .raw root.node.id) ∧
    (root.node.is_external = false →
      ShippingMethod.resolve_id root =
        .globalId (to_global_id "ShippingMethod" root.node.id)) := by
  constructor <;> intro h <;> simp [ShippingMethod.resolve_id, h]

/-- C7 witness: the external method keeps its raw id 9; the local method
7 is encoded, and the codec produces the base64 of `"ShippingMethod:7"`. -/
theorem C7_resolve_id_scheme_witness :
    ShippingMethod.resolve_id extRoot = .raw extRoot.node.id ∧
    ShippingMethod.resolve_id sampleRoot =
      .globalId (to_global_id "ShippingMethod" sampleRoot.node.id) ∧
    to_global_id "ShippingMethod" 7 = "U2hpcHBpbmdNZXRob2Q6Nw==" :=
  ⟨(C7_resolve_id_scheme extRoot).1 rfl,
    (C7_resolve_id_scheme sampleRoot).2 rfl, rfl⟩

/-- C8: the weight conversion is a pure function of its arguments and is
the identity when the target unit equals the weight's own unit; through
the weight resolvers, a stored weight already in the shop's default unit
comes back unchanged. -/
theorem C8_weight_conversion_idempotent (w : Weight)
    (root : ChannelContext ShippingMethodNode) (default_unit : WeightUnit) :
    convert_weight w w.unit = w ∧
    (root.node.minimum_order_weight = some w → w.unit = default_unit →
      ShippingMethod.resolve_minimum_order_weight root default_unit = some w) ∧
    (root.node.maximum_order_weight = some w → w.unit = default_unit →
      ShippingMethod.resolve_maximum_order_weight root default_unit = some w) := by
  refine ⟨convert_weight_self w, ?_, ?_⟩ <;> intro hw hu <;> subst hu
  · simp [ShippingMethod.resolve_minimum_order_weight,
      convert_weight_to_default_weight_unit, hw, convert_weight_self]
  · simp [ShippingMethod.resolve_maximum_order_weight,
      convert_weight_to_default_weight_unit, hw, convert_weight_self]

/-- C8 witness: 5 kg converted to kilograms is 5 kg, also through both
weight resolvers for a method storing 5 kg bounds. -/
theorem C8_weight_conversion_idempotent_witness :
    convert_weight ⟨WeightUnit.kg, 5⟩ (Weight.unit ⟨WeightUnit.kg, 5⟩) =
      ⟨WeightUnit.kg, 5⟩ ∧
    ShippingMethod.resolve_minimum_order_weight
      ⟨⟨11, none, none, none, false, some ⟨WeightUnit.kg, 5⟩,
        some ⟨WeightUnit.kg, 5⟩, none⟩, none⟩ WeightUnit.kg =
      some ⟨WeightUnit.kg, 5⟩ ∧
    ShippingMethod.resolve_maximum_order_weight
      ⟨⟨11, none, none, none, false, some ⟨WeightUnit.kg, 5⟩,
        some ⟨WeightUnit.kg, 5⟩, none⟩, none⟩ WeightUnit.kg =
      some ⟨WeightUnit.kg, 5⟩ := by
  have h := C8_weight_conversion_idempotent ⟨WeightUnit.kg, 5⟩
    ⟨⟨11, none, none, none, false, some ⟨WeightUnit.kg, 5⟩,
      some ⟨WeightUnit.kg, 5⟩, none⟩, none⟩ WeightUnit.kg
  exact ⟨h.1, h.2.1 rfl rfl, h.2.2 rfl rfl⟩

/-- C9: `resolve_countries` returns one `CountryDisplay` per country of
the zone, in the zone's order, with code and name copied; it is a total
function into a list (never an absent value) and involves no loader. -/
theorem C9_resolve_countries_map (root : ChannelContext ShippingZoneNode) :
    (ShippingZone.resolve_countries root).length =
      root.node.countries.length ∧
    ∀ i : Nat, (ShippingZone.resolve_countries root)[i]? =
      (root.node.countries[i]?).map
        (fun country => CountryDisplay.mk country.code country.name) := by
  refine ⟨by simp [ShippingZone.resolve_countries], ?_⟩
  intro i
  simp [ShippingZone.resolve_countries]

/-- C10: when the excluded-products collection is absent or empty, the
permission-guarded body of `resolve_excluded_products` returns a
connection over the empty product set (never an absent value) and no
loader is involved. -/
theorem C10_excluded_products_empty_connection
    (root : ChannelContext ShippingMethodNode)
    (h : root.node.excluded_products = none ∨
      root.node.excluded_products = some []) :
    ShippingMethod.resolve_excluded_products root =
      create_connection_slice [] := by
  rcases h with h | h <;>
    simp [ShippingMethod.resolve_excluded_products, excludedProductsTruthy, h]

/-- C10 witness: the method with an absent excluded-products collection
gets the empty connection. -/
theorem C10_excluded_products_empty_connection_witness :
    ShippingMethod.resolve_excluded_products noSlugRoot =
      create_connection_slice [] :=
  C10_excluded_products_empty_connection noSlugRoot (Or.inl rfl)
